import Mathlib

/-!
Verification of the calendar web application's recurrence expansion engine
and reminder subsystem (backend/app/utils/recurrence.py,
backend/app/utils/reminder_scheduler.py, backend/app/api/reminders/routes.py,
backend/app/api/events/routes.py).

Modelling conventions:
* Instants are integers: seconds since the Unix epoch, UTC.  The source keeps
  naive UTC `datetime` values in the database and normalizes to UTC before
  comparisons, so a single integer timeline is faithful.
* Calendar arithmetic (year/month/day to epoch day and back) follows the
  standard proleptic-Gregorian civil-date algorithms.
* `dateutil.rrule` behaviour is embedded for the parameter combinations the
  source can actually build and run (DAILY / WEEKLY with a weekday list /
  MONTHLY with a month day, each with `interval`, `dtstart`, and one of
  `until` or `count`).  YEARLY never reaches `rrule`: dateutil's YEARLY
  frequency constant is the falsy integer `0`, so the source's
  `if not freq` check returns `[event]` for every YEARLY rule.  Occurrences
  carry the anchor's time of day; `until` is inclusive; only instants at or
  after `dtstart` are produced.
-/

/-! ## Calendar arithmetic -/

/-- Gregorian leap-year test. -/
def isLeapYear (y : Int) : Bool :=
  y % 4 == 0 && (y % 100 != 0 || y % 400 == 0)

/-- Number of days in month `m` (1..12) of year `y`. -/
def daysInMonth (y m : Int) : Int :=
  if m == 2 then (if isLeapYear y then 29 else 28)
  else if m == 4 || m == 6 || m == 9 || m == 11 then 30
  else 31

/-- Epoch day number (days since 1970-01-01) of the civil date `y-m-d`. -/
def daysFromCivil (y m d : Int) : Int :=
  let y' := if m ≤ 2 then y - 1 else y
  let era := y'.fdiv 400
  let yoe := y' - era * 400
  let mp := if m > 2 then m - 3 else m + 9
  let doy := (153 * mp + 2).fdiv 5 + d - 1
  let doe := yoe * 365 + yoe.fdiv 4 - yoe.fdiv 100 + doy
  era * 146097 + doe - 719468

/-- Civil date `(y, m, d)` of an epoch day number. -/
def civilFromDays (z : Int) : Int × Int × Int :=
  let z' := z + 719468
  let era := z'.fdiv 146097
  let doe := z' - era * 146097
  let yoe := (doe - doe.fdiv 1460 + doe.fdiv 36524 - doe.fdiv 146096).fdiv 365
  let y := yoe + era * 400
  let doy := doe - (365 * yoe + yoe.fdiv 4 - yoe.fdiv 100)
  let mp := (5 * doy + 2).fdiv 153
  let d := doy - (153 * mp + 2).fdiv 5 + 1
  let m := if mp < 10 then mp + 3 else mp - 9
  (if m ≤ 2 then y + 1 else y, m, d)

/-- Year of an epoch day. -/
def yearOfDay (z : Int) : Int := (civilFromDays z).1

/-- Month (1..12) of an epoch day. -/
def monthOfDay (z : Int) : Int := (civilFromDays z).2.1

/-- Day of month (1..31) of an epoch day. -/
def domOfDay (z : Int) : Int := (civilFromDays z).2.2

/-- Weekday of an epoch day, Monday = 0 .. Sunday = 6 (Python convention;
1970-01-01 was a Thursday). -/
def weekdayOfDay (z : Int) : Int := (z + 3).emod 7

/-- Epoch day of the Monday starting the week of `z` (dateutil's default week
start `wkst` is Monday). -/
def mondayOfWeek (z : Int) : Int := z - weekdayOfDay z

/-- Linear month index `12*y + (m-1)` of an epoch day, used for MONTHLY
interval alignment. -/
def monthIndexOfDay (z : Int) : Int :=
  12 * yearOfDay z + (monthOfDay z - 1)

/-- Epoch day of a given instant (floor). -/
def dayOfTime (t : Int) : Int := t.fdiv 86400

/-- Seconds past midnight of a given instant. -/
def todOfTime (t : Int) : Int := t.emod 86400

/-- Model of `relativedelta(years=2)`: same month and day two years later, with the
day clamped into the target month (only Feb 29 needs clamping). -/
def addTwoYears (t : Int) : Int :=
  let z := dayOfTime t
  let y := yearOfDay z
  let m := monthOfDay z
  let d := domOfDay z
  let d' := min d (daysInMonth (y + 2) m)
  daysFromCivil (y + 2) m d' * 86400 + todOfTime t

example : daysFromCivil 1970 1 1 = 0 := by decide
example : daysFromCivil 2024 1 31 = 19753 := by decide
example : civilFromDays 19753 = (2024, 1, 31) := by decide
example : weekdayOfDay 0 = 3 := by decide
example : daysInMonth 2024 2 = 29 := by decide
example : daysInMonth 2023 2 = 28 := by decide

/-! ## Data model (backend/app/models) -/

/-- Event row (models/event.py).  Descriptive payload fields that the claims
never inspect (description, color, all-day flag, category links, timestamps)
are represented by `title` alone; they are copied verbatim by the code paths
modelled here and play no role in any property. -/
structure Event where
  id : Int
  user_id : Int
  title : String
  start_datetime : Int
  end_datetime : Option Int
deriving DecidableEq, Repr

/-- RecurrenceRule row (models/recurrence_rule.py).  `days_of_week` is stored
comma-joined in the database; the generator splits it back on commas and
strips each code (a no-op for the canonical stored codes), so it is modelled
directly as the list of weekday-code strings. -/
structure RecurrenceRule where
  frequency : String
  interval : Option Int
  days_of_week : Option (List String)
  day_of_month : Option Int
  week_of_month : Option Int
  day_of_week : Option String
  end_date : Option Int
  occurrence_count : Option Int
deriving DecidableEq, Repr

/-! ## RecurrenceGenerator (backend/app/utils/recurrence.py) -/

/-- The frequency shapes the generator can actually hand to `rrule`.
YEARLY is absent: dateutil numbers its frequency constants
`(YEARLY, MONTHLY, WEEKLY, DAILY, ...) = list(range(7))`, so
`FREQUENCY_MAP['YEARLY']` is the integer `0`, which is falsy in the
source's `if not freq: return [event]` check — a YEARLY rule is never
expanded. -/
inductive Freq | daily | weekly | monthly
deriving DecidableEq, Repr

/-- Lookup `RecurrenceGenerator.FREQUENCY_MAP.get`: the values are
dateutil's frequency constants (`YEARLY = 0`, `MONTHLY = 1`, `WEEKLY = 2`,
`DAILY = 3`). -/
def FREQUENCY_MAP (s : String) : Option Int :=
  if s == "DAILY" then some 3
  else if s == "WEEKLY" then some 2
  else if s == "MONTHLY" then some 1
  else if s == "YEARLY" then some 0
  else none

/-- The frequency shape of a truthy (non-zero) dateutil constant produced
by `FREQUENCY_MAP`. -/
def freqOfConst (c : Int) : Freq :=
  if c == 1 then .monthly else if c == 2 then .weekly else .daily

/-- Lookup `RecurrenceGenerator.WEEKDAY_MAP.get`. -/
def WEEKDAY_MAP (s : String) : Option Int :=
  if s == "MON" then some 0
  else if s == "TUE" then some 1
  else if s == "WED" then some 2
  else if s == "THU" then some 3
  else if s == "FRI" then some 4
  else if s == "SAT" then some 5
  else if s == "SUN" then some 6
  else none

/-- Python truthiness of an optional integer column (`None` and `0` are
falsy). -/
def truthyInt : Option Int → Bool
  | none => false
  | some n => n != 0

/-- Python truthiness of an optional string column (`None` and `''` are
falsy). -/
def truthyStr : Option String → Bool
  | none => false
  | some s => s != ""

/-- Model of `RecurrenceGenerator.validate_recurrence_rule`.  The dynamic
`isinstance(_, int)` checks of the source are subsumed by the integer field
types of the model; an absent `frequency` key is represented by the empty
string (both are falsy in the source's `if not rule_data.get('frequency')`). -/
def validate_recurrence_rule (r : RecurrenceRule) : List String :=
  let errs₁ :=
    if r.frequency == "" then ["Frequency is required"]
    else if (FREQUENCY_MAP r.frequency).isNone then ["Invalid frequency"]
    else []
  let interval := r.interval.getD 1
  let errs₂ := if interval < 1 then ["Interval must be a positive integer"] else []
  let errs₃ :=
    if r.frequency == "WEEKLY" then
      match r.days_of_week with
      | some days => days.filterMap (fun day =>
          if (WEEKDAY_MAP day).isNone then some ("Invalid day of week: " ++ day) else none)
      | none => []
    else []
  let errs₄ :=
    if r.frequency == "MONTHLY" then
      (match r.day_of_month with
       | some d => if d != 0 && (d < 1 || d > 31) then ["Day of month must be between 1 and 31"] else []
       | none => []) ++
      (match r.week_of_month with
       | some w => if w != 0 && (w < 1 || w > 5) then ["Week of month must be between 1 and 5"] else []
       | none => [])
    else []
  let errs₅ :=
    if truthyInt r.end_date && truthyInt r.occurrence_count then
      ["Cannot specify both end_date and occurrence_count"]
    else []
  let errs₆ :=
    match r.occurrence_count with
    | some c => if c != 0 && c < 1 then ["Occurrence count must be a positive integer"] else []
    | none => []
  errs₁ ++ errs₂ ++ errs₃ ++ errs₄ ++ errs₅ ++ errs₆

/-- End condition passed to `rrule`: exactly one of `until` / `count`. -/
inductive Terminator
  | tUntil (u : Int)
  | tCount (c : Nat)
deriving DecidableEq, Repr

/-- The `rrule` parameter set built by `generate_occurrences` once
construction of the `rrule` object is known to succeed.  `weekdays` is only
meaningful for WEEKLY, `monthday` only for MONTHLY. -/
structure RParams where
  freq : Freq
  interval : Int
  d0 : Int
  tod : Int
  weekdays : List Int
  monthday : Int
  term : Terminator
deriving DecidableEq, Repr

/-- The one MONTHLY parameter combination on which the source's
`rrule(...)` construction raises and the surrounding `except` returns
`[event]`: no truthy `day_of_month`, but truthy `week_of_month` and
`day_of_week` with a recognized weekday code.  The source then passes the
*string* `f"{weekday}({week_num})"` as `byweekday`, and iterating that
string in the `rrule` constructor hits `wday.n` on a one-character `str`
(`AttributeError`).  A truthy `day_of_month` of any value is passed through
as `bymonthday` unvalidated — dateutil performs no range check on it, only
splitting values into positive/negative tuples — so a day that exists in no
month merely yields no occurrences, it does not raise. -/
def monthly_raises (r : RecurrenceRule) : Bool :=
  !(truthyInt r.day_of_month) && truthyInt r.week_of_month &&
  truthyStr r.day_of_week && (WEEKDAY_MAP (r.day_of_week.getD "")).isSome

/-- Holds exactly when `generate_occurrences` reaches the occurrence loop
for this rule: the frequency name is known, its dateutil constant is truthy
(which rules out YEARLY = 0), and `rrule` construction does not raise. -/
def expansionSucceeds (r : RecurrenceRule) : Bool :=
  match FREQUENCY_MAP r.frequency with
  | none => false
  | some c => c != 0 && !(c == 1 && monthly_raises r)

/-- Assemble the `rrule` parameters exactly as `generate_occurrences` does;
`none` covers the two fallback sites: `if not freq: return [event]` — which
catches both an unknown frequency name (`.get` returns `None`) and YEARLY
(whose constant `0` is falsy) — and the `except` clause around
`rrule(**rrule_params)`. -/
def buildParams (event : Event) (r : RecurrenceRule) (end_date : Int)
    (max_occurrences : Nat) : Option RParams :=
  match FREQUENCY_MAP r.frequency with
  | none => none
  | some c =>
    if c == 0 then none
    else
    let freq := freqOfConst c
    -- 'interval': recurrence_rule.interval or 1  (None and 0 both give 1)
    let interval := match r.interval with
      | none => 1
      | some i => if i == 0 then 1 else i
    let term : Terminator :=
      if truthyInt r.end_date then .tUntil (r.end_date.getD 0)
      else if truthyInt r.occurrence_count then
        .tCount (min (r.occurrence_count.getD 0) (max_occurrences : Int)).toNat
      else .tUntil end_date
    let d0 := dayOfTime event.start_datetime
    let tod := todOfTime event.start_datetime
    -- WEEKLY: parsed days_of_week codes if any are valid, else rrule's
    -- default byweekday = dtstart.weekday()
    let weekdays :=
      if r.frequency == "WEEKLY" && truthyStr (r.days_of_week.map (fun l => String.intercalate "," l)) then
        let parsed := (r.days_of_week.getD []).filterMap WEEKDAY_MAP
        if parsed.isEmpty then [weekdayOfDay d0] else parsed
      else [weekdayOfDay d0]
    -- MONTHLY: bymonthday from day_of_month if truthy, else (week_of_month,
    -- day_of_week) raises, else rrule's default bymonthday = dtstart.day
    if freq == .monthly && monthly_raises r then none
    else
      let monthday :=
        if truthyInt r.day_of_month then r.day_of_month.getD 0 else domOfDay d0
      some { freq := freq, interval := interval, d0 := d0, tod := tod,
             weekdays := weekdays, monthday := monthday, term := term }

/-- Does epoch day `d` carry an occurrence of the rule anchored at `ps.d0`?
This is dateutil's day filter for the four frequency shapes the source can
build (week start Monday, occurrences only at the anchor's time of day):

* DAILY: every `interval` days from the anchor;
* WEEKLY: weekday in the byweekday set, in weeks aligned to the anchor's
  Monday-started week modulo `7*interval`;
* MONTHLY: month aligned to the anchor's month modulo `interval`, and the
  day of month equal to `bymonthday` (negative values count from month end);
  a month without that day simply contributes nothing — dateutil skips
  invalid dates rather than clamping them, and a `bymonthday` that exists in
  no month matches no day at all. -/
def matchesDay (ps : RParams) (d : Int) : Bool :=
  match ps.freq with
  | .daily => (d - ps.d0).emod ps.interval == 0
  | .weekly =>
    ps.weekdays.contains (weekdayOfDay d) &&
    (mondayOfWeek d - mondayOfWeek ps.d0).emod (7 * ps.interval) == 0
  | .monthly =>
    (monthIndexOfDay d - monthIndexOfDay ps.d0).emod ps.interval == 0 &&
    (if ps.monthday > 0 then domOfDay d == ps.monthday
     else domOfDay d - (daysInMonth (yearOfDay d) (monthOfDay d) + 1) == ps.monthday)

/-- Consecutive epoch days `d0, d0+1, ..., d0+n-1`. -/
def dayRange (d0 : Int) (n : Nat) : List Int :=
  (List.range n).map (fun (k : Nat) => d0 + (k : Int))

/-- Scan horizon (in days) for a `count`-terminated rule: enough consecutive
days from the anchor to find `c` matches for any satisfiable rule shape.
dateutil's iterator is unbounded; on rules with too few matching instants
(e.g. MONTHLY day 31 with `interval = 12` from a February anchor, or a
`bymonthday` that exists in no month) the source's
`for occurrence_start in rule` loop never terminates, while this model
returns the matches found within the horizon. -/
def scanHorizon (ps : RParams) (c : Nat) : Nat :=
  let i := ps.interval.toNat
  match ps.freq with
  | .daily => c * i + 1
  | .weekly => c * 7 * i + 8
  | .monthly => c * 32 * i + 2930

/-- The ascending stream of instants produced by `rrule(**rrule_params)`,
materialized up to the end condition (`until` is inclusive; `count` yields
that many instants counted from the anchor). -/
def rruleTimes (ps : RParams) : List Int :=
  match ps.term with
  | .tUntil u =>
    let n := ((u - ps.tod).fdiv 86400 - ps.d0 + 1).toNat
    ((dayRange ps.d0 n).filter (matchesDay ps)).map (fun d => d * 86400 + ps.tod)
  | .tCount c =>
    (((dayRange ps.d0 (scanHorizon ps c)).filter (matchesDay ps)).take c).map
      (fun d => d * 86400 + ps.tod)

/-- The window/limit loop of `generate_occurrences`: skip instants outside
`[w1, w2]`, keep the rest, and break out as soon as `max_occurrences` have
been kept (the bound is checked after each append).  `len` is the number of
occurrences already accumulated. -/
def windowLoop (w1 w2 : Int) (maxOcc : Nat) : List Int → Nat → List Int
  | [], _ => []
  | t :: ts, len =>
    if t < w1 || t > w2 then windowLoop w1 w2 maxOcc ts len
    else if len + 1 ≥ maxOcc then [t]
    else t :: windowLoop w1 w2 maxOcc ts (len + 1)

/-- One generated occurrence dictionary.  The string id
`f"{event.id}_{strftime(start)}"` is determined by `parent_event_id` and
`start_datetime` and is not separately modelled. -/
structure Occurrence where
  title : String
  start_datetime : Int
  end_datetime : Option Int
  is_recurring : Bool
  parent_event_id : Int
deriving DecidableEq, Repr

/-- Build one occurrence dictionary from its start instant.  Note the source
computes `occurrence_end = occurrence_start + duration if duration else None`:
a zero-length duration is falsy in Python, so a zero-duration anchor yields
occurrences with no end. -/
def mkOccurrence (event : Event) (t : Int) : Occurrence :=
  let duration := match event.end_datetime with
    | some e => some (e - event.start_datetime)
    | none => none
  let occEnd := match duration with
    | some d => if d == 0 then none else some (t + d)
    | none => none
  { title := event.title, start_datetime := t, end_datetime := occEnd,
    is_recurring := true, parent_event_id := event.id }

/-- An element of the list returned by `generate_occurrences`: either the
anchor event object itself (the non-recurring / fallback returns) or an
occurrence dictionary. -/
inductive GenItem
  | anchor (e : Event)
  | occ (o : Occurrence)
deriving DecidableEq, Repr

/-- Start instant of a returned item. -/
def startOfItem : GenItem → Int
  | .anchor e => e.start_datetime
  | .occ o => o.start_datetime

/-- Model of `RecurrenceGenerator.generate_occurrences`. -/
def generate_occurrences (event : Event) (recurrence_rule : Option RecurrenceRule)
    (start_date? : Option Int := none) (end_date? : Option Int := none)
    (max_occurrences : Nat := 1000) : List GenItem :=
  match recurrence_rule with
  | none => [.anchor event]
  | some r =>
    let start_date := start_date?.getD event.start_datetime
    let end_date := end_date?.getD (addTwoYears start_date)
    match buildParams event r end_date max_occurrences with
    | none => [.anchor event]
    | some ps =>
      (windowLoop start_date end_date max_occurrences (rruleTimes ps) 0).map
        (fun t => .occ (mkOccurrence event t))

example :
    (generate_occurrences
      { id := 1, user_id := 1, title := "e", start_datetime := 0, end_datetime := none }
      (some { frequency := "DAILY", interval := some 2, days_of_week := none,
              day_of_month := none, week_of_month := none, day_of_week := none,
              end_date := none, occurrence_count := some 3 })
      (some 0) (some 864000) 1000).map startOfItem = [0, 172800, 345600] := by decide

/-! ## Reminder model (models/reminder.py) -/

/-- Reminder row.  `created_at` / `updated_at` timestamps are not modelled;
no claim depends on them. -/
structure Reminder where
  id : Int
  event_id : Int
  reminder_time : Option Int
  notification_sent : Bool
  notification_type : String
  minutes_before : Option Int
  is_relative : Bool
deriving DecidableEq, Repr

/-! ## Reminder creation (backend/app/api/reminders/routes.py and the
reminder block of `create_event` in backend/app/api/events/routes.py)

The HTTP layer around the checks (authentication, JSON shape, rate limits)
is orthogonal to the claims and not modelled.  `validate_datetime_string` is
modelled as delivering an already-parsed instant: an absent or empty
`reminder_time` string is `none`, a malformed string (rejected before any
timing check) is outside the model. -/

/-- Outcome of `create_reminder`: either the created row plus the resulting
reminder table, or the error message and HTTP status of the rejecting
`error_response` (nothing is persisted on an error). -/
inductive CreateResult
  | ok (r : Reminder) (db : List Reminder)
  | err (msg : String) (code : Nat)
deriving DecidableEq, Repr

/-- Tail of `create_reminder` once a reminder time passed the timing checks:
duplicate check against the stored table, then persistence. -/
def finishCreateReminder (event : Event) (existing : List Reminder)
    (notification_type : String) (next_id : Int) (rt : Int)
    (mb : Option Int) (rel : Bool) : CreateResult :=
  if existing.any (fun x => x.event_id == event.id && x.reminder_time == some rt) then
    .err "A reminder for this time already exists" 409
  else
    let newR : Reminder :=
      { id := next_id, event_id := event.id, reminder_time := some rt,
        notification_sent := false, notification_type := notification_type,
        minutes_before := mb, is_relative := rel }
    .ok newR (existing ++ [newR])

/-- Model of `create_reminder` (single-reminder POST route), validation and
persistence in source order.  `next_id` stands for the database-assigned
primary key. -/
def create_reminder (event : Event) (existing : List Reminder)
    (reminder_time? : Option Int) (minutes_before? : Option Int)
    (notification_type : String) (now : Int) (next_id : Int) : CreateResult :=
  if reminder_time?.isNone && minutes_before?.isNone then
    .err "Either reminder_time or minutes_before must be provided" 400
  else if reminder_time?.isSome && minutes_before?.isSome then
    .err "Cannot specify both reminder_time and minutes_before" 400
  else if !(notification_type == "email" || notification_type == "push" ||
            notification_type == "sms") then
    .err "Invalid notification type. Must be one of: email, push, sms" 400
  else
    match minutes_before? with
    | some mb =>
      -- relative reminder: past check only (no before-start check)
      if mb < 0 then .err "minutes_before must be a non-negative integer" 400
      else
        let rt := event.start_datetime - 60 * mb
        if rt ≤ now then .err "Calculated reminder time cannot be in the past" 400
        else finishCreateReminder event existing notification_type next_id rt (some mb) true
    | none =>
      -- absolute reminder: past check, then strict before-start check
      let rt := reminder_time?.getD 0
      if rt ≤ now then .err "Reminder time cannot be in the past" 400
      else if rt ≥ event.start_datetime then .err "Reminder time must be before event start time" 400
      else finishCreateReminder event existing notification_type next_id rt none false

/-- The reminder table after a `create_reminder` call (unchanged when the
call is rejected). -/
def applyCreate (existing : List Reminder) : CreateResult → List Reminder
  | .ok _ db => db
  | .err _ _ => existing

/-- One item of a bulk-creation request body. -/
structure BulkReminderItem where
  event_id : Int
  reminder_time? : Option Int
  minutes_before? : Option Int
  notification_type : String
deriving DecidableEq, Repr

/-- Per-item validation of `create_bulk_reminders`: the created row, or the
index-qualified error string.  Mirrors the single-create checks except that
the bulk path performs **no** duplicate check and **no** notification-type
check. -/
def bulkValidateItem (events : List Event) (item : BulkReminderItem)
    (now : Int) (next_id : Int) : Except String Reminder :=
  match events.find? (fun e => e.id == item.event_id) with
  | none => .error "Invalid or unauthorized event"
  | some event =>
    if item.reminder_time?.isNone && item.minutes_before?.isNone then
      .error "Either reminder_time or minutes_before must be provided"
    else if item.reminder_time?.isSome && item.minutes_before?.isSome then
      .error "Cannot specify both reminder_time and minutes_before"
    else
      match item.minutes_before? with
      | some mb =>
        if mb < 0 then .error "minutes_before must be a non-negative integer"
        else
          let rt := event.start_datetime - 60 * mb
          if rt ≤ now then .error "Calculated reminder time cannot be in the past"
          else .ok { id := next_id, event_id := event.id, reminder_time := some rt,
                     notification_sent := false,
                     notification_type := item.notification_type,
                     minutes_before := some mb, is_relative := true }
      | none =>
        let rt := item.reminder_time?.getD 0
        if rt ≤ now then .error "Reminder time cannot be in the past"
        else if rt ≥ event.start_datetime then .error "Reminder time must be before event start time"
        else .ok { id := next_id, event_id := event.id, reminder_time := some rt,
                   notification_sent := false,
                   notification_type := item.notification_type,
                   minutes_before := none, is_relative := false }

/-- Model of `create_bulk_reminders`: per-item best-effort validation, then a single
commit of all accepted rows.  Returns the reminder table after the commit and
the collected error messages.  `events` is the caller's set of owned events
(`valid_event_ids`). -/
def create_bulk_reminders (events : List Event) (existing : List Reminder)
    (items : List BulkReminderItem) (now : Int) (next_id : Int) :
    List Reminder × List String :=
  let step := fun (acc : List Reminder × List String × Int) (item : BulkReminderItem) =>
    let (created, errs, nid) := acc
    match bulkValidateItem events item now nid with
    | .ok r => (created ++ [r], errs, nid + 1)
    | .error e => (created, errs ++ [e], nid)
  let res := items.foldl step ([], [], next_id)
  (existing ++ res.1, res.2.1)

/-- One candidate of the reminder-validation block of `create_event`
(events/routes.py), checked against the new event's start: the same timing
checks as the single-reminder route (including the relative path's missing
before-start check), but no duplicate and no notification-type check. -/
def validateOneEventReminder (start_dt now : Int)
    (item : Option Int × Option Int × String) :
    Except String (Int × Option Int × Bool × String) :=
  let (reminder_time?, minutes_before?, ntype) := item
  if reminder_time?.isNone && minutes_before?.isNone then
    .error "Either reminder_time or minutes_before must be provided"
  else if reminder_time?.isSome && minutes_before?.isSome then
    .error "Cannot specify both reminder_time and minutes_before"
  else
    match minutes_before? with
    | some mb =>
      if mb < 0 then .error "minutes_before must be a non-negative integer"
      else
        let rt := start_dt - 60 * mb
        if rt ≤ now then .error "Calculated reminder time cannot be in the past"
        else .ok (rt, some mb, true, ntype)
    | none =>
      let rt := reminder_time?.getD 0
      if rt ≤ now then .error "Reminder time cannot be in the past"
      else if rt ≥ start_dt then .error "Reminder time must be before event start time"
      else .ok (rt, none, false, ntype)

/-- The candidates are validated in request order; the first failure aborts
the whole event-creation request (all-or-nothing), and on success every
computed `(reminder_time, minutes_before, is_relative, type)` row is
persisted with the new event. -/
def validateEventReminders (start_dt now : Int) :
    List (Option Int × Option Int × String) →
    Except String (List (Int × Option Int × Bool × String))
  | [] => .ok []
  | item :: rest =>
    match validateOneEventReminder start_dt now item with
    | .error e => .error e
    | .ok v =>
      match validateEventReminders start_dt now rest with
      | .error e => .error e
      | .ok vs => .ok (v :: vs)

/-! ## Relative-reminder recompute on anchor moves
(`update_event` and `bulk_move_events` in backend/app/api/events/routes.py) -/

/-- The per-reminder recompute both routes perform after an anchor's start
changed to `newStart`: only relative reminders with `minutes_before` set are
touched, and the stored time is overwritten only when the recomputed time is
strictly in the future; `notification_sent` is never written. -/
def moveOneReminder (eid newStart now : Int) (r : Reminder) : Reminder :=
  if r.event_id == eid && r.is_relative then
    match r.minutes_before with
    | some mb =>
      let nt := newStart - 60 * mb
      if nt > now then { r with reminder_time := some nt } else r
    | none => r
  else r

/-- The reminder-recompute pass of `update_event`, run only when the request
changed `start_datetime`. -/
def update_event_reminders (startChanged : Bool) (eid newStart now : Int)
    (reminders : List Reminder) : List Reminder :=
  if startChanged then reminders.map (moveOneReminder eid newStart now)
  else reminders

/-- The reminder-recompute pass of `bulk_move_events`: each selected event's
start moves by `offsetMinutes`, and its relative reminders recompute against
the moved start. -/
def bulk_move_reminders (events : List Event) (offsetMinutes now : Int)
    (reminders : List Reminder) : List Reminder :=
  events.foldl (fun rs e =>
    rs.map (moveOneReminder e.id (e.start_datetime + 60 * offsetMinutes) now)) reminders

/-! ## Notification scheduler (backend/app/utils/reminder_scheduler.py) -/

/-- User row (only the fields the scheduler reads). -/
structure User where
  id : Int
  email : String
  username : String
deriving DecidableEq, Repr

/-- Store state seen by one scheduler tick. -/
structure SchedState where
  reminders : List Reminder
  events : List Event
  users : List User
deriving DecidableEq, Repr

/-- SQL selection of `check_reminders`: `reminder_time <= now + 1 minute`
and `notification_sent = false`.  A row with NULL `reminder_time` is not
selected (SQL three-valued comparison), which also makes the in-loop
`if not reminder_time_utc` guard unreachable. -/
def selectedForTick (now : Int) (r : Reminder) : Bool :=
  match r.reminder_time with
  | some t => t ≤ now + 60 && r.notification_sent == false
  | none => false

/-- Python-side due filter inside the loop: skip rows not yet due. -/
def dueNow (now : Int) (r : Reminder) : Bool :=
  match r.reminder_time with
  | some t => t ≤ now
  | none => false

/-- Event and user resolution of one selected reminder. -/
def resolveReminder (st : SchedState) (r : Reminder) : Option (Event × User) :=
  match st.events.find? (fun e => e.id == r.event_id) with
  | none => none
  | some e =>
    match st.users.find? (fun u => u.id == e.user_id) with
    | none => none
    | some u => some (e, u)

/-- Dispatch outcome for one selected, due, resolved reminder.
`emailOk` is the oracle for `email_service.send_reminder_notification`
(its boolean return, keyed by reminder id).  The `push`, `sms`, and
unknown-type branches perform no transport call and unconditionally report
success ("Mark as sent for now" / "Avoid retry loop for unknown types"). -/
def dispatchOutcome (emailOk : Int → Bool) (r : Reminder) : Bool :=
  if r.notification_type == "email" then emailOk r.id else true

/-- Processing of a single reminder row in one tick: the row is rewritten
with `notification_sent := true` exactly when it is selected, due, resolves
to an existing event and user, and its dispatch reports success; otherwise
the row is left unchanged (the per-row commit touches only this row). -/
def processRow (emailOk : Int → Bool) (now : Int) (st : SchedState)
    (r : Reminder) : Reminder :=
  if selectedForTick now r && dueNow now r then
    match resolveReminder st r with
    | none => r
    | some _ =>
      if dispatchOutcome emailOk r then { r with notification_sent := true } else r
  else r

/-- Result of one `check_reminders` tick: the updated store, the reminder
rows for which a real email dispatch was attempted
(`email_service.send_reminder_notification` called), and the rows skipped
with an orphan warning (missing event or user). -/
structure TickResult where
  state : SchedState
  emailAttempts : List Reminder
  orphanWarnings : List Reminder
deriving DecidableEq, Repr

/-- One `check_reminders` tick.  Events and users are only read. -/
def tick (emailOk : Int → Bool) (now : Int) (st : SchedState) : TickResult :=
  { state := { st with reminders := st.reminders.map (processRow emailOk now st) },
    emailAttempts :=
      st.reminders.filter (fun r =>
        selectedForTick now r && dueNow now r && (resolveReminder st r).isSome &&
        r.notification_type == "email"),
    orphanWarnings :=
      st.reminders.filter (fun r =>
        selectedForTick now r && dueNow now r && (resolveReminder st r).isNone) }

/-- A whole run of the periodic job: one tick per `(now, emailOk)` pair, in
order. -/
def runTicks : List (Int × (Int → Bool)) → SchedState → SchedState
  | [], st => st
  | (now, ok) :: rest, st => runTicks rest (tick ok now st).state

/-- All email dispatch attempts over a whole run, in order. -/
def runAttempts : List (Int × (Int → Bool)) → SchedState → List Reminder
  | [], _ => []
  | (now, ok) :: rest, st =>
    (tick ok now st).emailAttempts ++ runAttempts rest (tick ok now st).state


/-! ## Helper lemmas: the occurrence window loop -/

theorem windowLoop_sublist (w1 w2 : Int) (m : Nat) :
    ∀ (l : List Int) (len : Nat), (windowLoop w1 w2 m l len).Sublist l := by
  intro l
  induction l with
  | nil => intro len; simp [windowLoop]
  | cons t ts ih =>
    intro len
    simp only [windowLoop]
    split
    · exact (ih len).cons t
    · split
      · exact (List.nil_sublist ts).cons₂ t
      · exact (ih (len + 1)).cons₂ t

theorem windowLoop_mem (w1 w2 : Int) (m : Nat) :
    ∀ (l : List Int) (len : Nat) (t : Int),
      t ∈ windowLoop w1 w2 m l len → w1 ≤ t ∧ t ≤ w2 := by
  intro l
  induction l with
  | nil => intro len t h; simp [windowLoop] at h
  | cons x xs ih =>
    intro len t h
    simp only [windowLoop] at h
    by_cases hx : (decide (x < w1) || decide (x > w2)) = true
    · rw [if_pos hx] at h
      exact ih len t h
    · rw [if_neg hx] at h
      have hx1 : w1 ≤ x ∧ x ≤ w2 := by
        simp only [Bool.or_eq_true, decide_eq_true_eq, not_or, not_lt] at hx
        exact hx
      by_cases h2 : len + 1 ≥ m
      · rw [if_pos h2] at h
        simp only [List.mem_singleton] at h
        subst h
        exact hx1
      · rw [if_neg h2] at h
        rcases List.mem_cons.mp h with rfl | h
        · exact hx1
        · exact ih (len + 1) t h

theorem windowLoop_length (w1 w2 : Int) (m : Nat) :
    ∀ (l : List Int) (len : Nat), len < m →
      (windowLoop w1 w2 m l len).length ≤ m - len := by
  intro l
  induction l with
  | nil => intro len _; simp [windowLoop]
  | cons x xs ih =>
    intro len hlen
    simp only [windowLoop]
    split
    · exact ih len hlen
    · split
      · rename_i h2
        simp only [List.length_singleton]
        omega
      · rename_i h2
        have := ih (len + 1) (by omega)
        simp only [List.length_cons]
        omega

theorem dayRange_pairwise (d0 : Int) (n : Nat) :
    (dayRange d0 n).Pairwise (· < ·) := by
  unfold dayRange
  rw [List.pairwise_map]
  refine List.Pairwise.imp ?_ (List.pairwise_lt_range n)
  intro a b hab
  dsimp only
  omega

theorem rruleTimes_pairwise (ps : RParams) :
    (rruleTimes ps).Pairwise (· < ·) := by
  unfold rruleTimes
  cases ps.term with
  | tUntil u =>
    dsimp only
    rw [List.pairwise_map]
    exact (List.Pairwise.sublist (List.filter_sublist _)
      (dayRange_pairwise _ _)).imp (fun h => by omega)
  | tCount c =>
    dsimp only
    rw [List.pairwise_map]
    exact (List.Pairwise.sublist (List.take_sublist _ _)
      (List.Pairwise.sublist (List.filter_sublist _)
        (dayRange_pairwise _ _))).imp (fun h => by omega)

theorem rruleTimes_mem_matches (ps : RParams) (t : Int)
    (h : t ∈ rruleTimes ps) :
    ∃ d, matchesDay ps d = true ∧ t = d * 86400 + ps.tod := by
  unfold rruleTimes at h
  cases hterm : ps.term with
  | tUntil u =>
    rw [hterm] at h
    dsimp only at h
    rcases List.mem_map.mp h with ⟨d, hd, rfl⟩
    exact ⟨d, (List.mem_filter.mp hd).2, rfl⟩
  | tCount c =>
    rw [hterm] at h
    dsimp only at h
    rcases List.mem_map.mp h with ⟨d, hd, rfl⟩
    have hd' := List.mem_of_mem_take hd
    exact ⟨d, (List.mem_filter.mp hd').2, rfl⟩

theorem generate_occurrences_success (event : Event) (r : RecurrenceRule)
    (w1 w2 : Int) (m : Nat) (ps : RParams)
    (h : buildParams event r w2 m = some ps) :
    generate_occurrences event (some r) (some w1) (some w2) m =
      (windowLoop w1 w2 m (rruleTimes ps) 0).map
        (fun t => .occ (mkOccurrence event t)) := by
  simp [generate_occurrences, h]

theorem generate_occurrences_fallback (event : Event) (r : RecurrenceRule)
    (w1? w2? : Option Int) (m : Nat)
    (h : buildParams event r (w2?.getD (addTwoYears (w1?.getD event.start_datetime))) m = none) :
    generate_occurrences event (some r) w1? w2? m = [.anchor event] := by
  simp [generate_occurrences, h]

theorem startOfItem_mkOccurrence (event : Event) (l : List Int) :
    (l.map (fun t => GenItem.occ (mkOccurrence event t))).map startOfItem = l := by
  induction l with
  | nil => rfl
  | cons x xs ih =>
    simp only [List.map_cons]
    rw [ih]
    rfl

theorem buildParams_isSome (event : Event) (r : RecurrenceRule)
    (w2 : Int) (m : Nat) (h : expansionSucceeds r = true) :
    (buildParams event r w2 m).isSome := by
  unfold expansionSucceeds at h
  unfold buildParams
  cases hf : FREQUENCY_MAP r.frequency with
  | none =>
    rw [hf] at h
    simp at h
  | some c =>
    rw [hf] at h
    dsimp only at h
    rw [Bool.and_eq_true] at h
    have hc0 : (c == 0) = false := by
      have h1 := h.1
      simp only [bne] at h1
      cases hcb : (c == 0) with
      | false => rfl
      | true => rw [hcb] at h1; simp at h1
    have hcm : (c == 1 && monthly_raises r) = false := by
      have h2 := h.2
      cases hy : (c == 1 && monthly_raises r) with
      | false => rfl
      | true => rw [hy] at h2; simp at h2
    dsimp only
    rw [hc0]
    simp only [Bool.false_eq_true, if_false]
    have hcond : (freqOfConst c == Freq.monthly && monthly_raises r) = false := by
      unfold freqOfConst
      cases hc1 : (c == 1) with
      | true =>
        rw [hc1, Bool.true_and] at hcm
        simp [hc1, hcm]
      | false =>
        cases hc2 : (c == 2) with
        | true => simp [hc1, hc2]
        | false => simp [hc1, hc2]
    simp [hcond]

/-! ## Claim C1 -/

/-- Anchor event for the C1 counterexample. -/
def evC1 : Event :=
  { id := 1, user_id := 1, title := "standup", start_datetime := 0, end_datetime := none }

/-- A structurally valid YEARLY rule: `validate_recurrence_rule` accepts it
(the frequency name is a key of `FREQUENCY_MAP`), but the mapped dateutil
constant `YEARLY = 0` is falsy, so `generate_occurrences` hits
`if not freq: return [event]` and never expands it. -/
def ruleC1 : RecurrenceRule :=
  { frequency := "YEARLY", interval := some 1, days_of_week := none,
    day_of_month := none, week_of_month := none, day_of_week := none,
    end_date := none, occurrence_count := none }

/-- C1 fails as stated: for the structurally valid YEARLY rule `ruleC1` and
the window [1970-02-01, 1970-02-28], `generate_occurrences` returns the
anchor event itself (YEARLY's falsy frequency constant short-circuits
expansion), whose start instant 1970-01-01 lies outside the window — so not
every returned start lies within [windowStart, windowEnd]. -/
theorem C1_counterexample :
    validate_recurrence_rule ruleC1 = [] ∧
    generate_occurrences evC1 (some ruleC1) (some 2678400) (some 5011200) 1000 =
      [GenItem.anchor evC1] ∧
    ¬ (∀ it ∈ generate_occurrences evC1 (some ruleC1) (some 2678400) (some 5011200) 1000,
        2678400 ≤ startOfItem it ∧ startOfItem it ≤ 5011200) := by
  refine ⟨by decide, by decide, ?_⟩
  intro h
  have := h (GenItem.anchor evC1) (by decide)
  simp [startOfItem, evC1] at this

/-- C1 as amended: for every event, structurally valid rule, and bounded
window, **provided** the rule is one the generator can actually expand
(`expansionSucceeds`, which excludes every YEARLY rule — dateutil's YEARLY
constant 0 is falsy in `if not freq` — and the MONTHLY week-of-month form,
whose string `byweekday` makes `rrule` construction raise; both fall back
to `[event]`) and `maxOccurrences ≥ 1` (the loop checks the cap only after
appending, so a zero cap still returns one occurrence), the returned
occurrence starts are strictly ascending and duplicate-free, each lies
within [windowStart, windowEnd], at most `maxOccurrences` items are
returned, and the call is deterministic. -/
theorem C1_amended (event : Event) (r : RecurrenceRule) (w1 w2 : Int) (m : Nat)
    (hv : validate_recurrence_rule r = []) (hs : expansionSucceeds r = true)
    (hm : 1 ≤ m) (out : List GenItem)
    (hout : generate_occurrences event (some r) (some w1) (some w2) m = out) :
    (out.map startOfItem).Pairwise (· < ·) ∧
    (out.map startOfItem).Nodup ∧
    (∀ it ∈ out, w1 ≤ startOfItem it ∧ startOfItem it ≤ w2) ∧
    out.length ≤ m ∧
    generate_occurrences event (some r) (some w1) (some w2) m = out := by
  obtain ⟨ps, hps⟩ := Option.isSome_iff_exists.mp (buildParams_isSome event r w2 m hs)
  rw [generate_occurrences_success event r w1 w2 m ps hps] at hout
  subst hout
  have hpair : (windowLoop w1 w2 m (rruleTimes ps) 0).Pairwise (· < ·) :=
    List.Pairwise.sublist (windowLoop_sublist w1 w2 m (rruleTimes ps) 0)
      (rruleTimes_pairwise ps)
  refine ⟨?_, ?_, ?_, ?_, ?_⟩
  · rw [startOfItem_mkOccurrence]
    exact hpair
  · rw [startOfItem_mkOccurrence]
    exact hpair.imp ne_of_lt
  · intro it hit
    rcases List.mem_map.mp hit with ⟨t, ht, rfl⟩
    have := windowLoop_mem w1 w2 m (rruleTimes ps) 0 t ht
    simpa [startOfItem, mkOccurrence] using this
  · rw [List.length_map]
    have := windowLoop_length w1 w2 m (rruleTimes ps) 0 (by omega)
    omega
  · exact generate_occurrences_success event r w1 w2 m ps hps

/-- Witness for `C1_amended`: a valid WEEKLY rule expanded over one week. -/
theorem C1_amended_witness :
    ((generate_occurrences
        { id := 2, user_id := 1, title := "gym", start_datetime := 0, end_datetime := none }
        (some { frequency := "WEEKLY", interval := some 1,
                days_of_week := some ["MON", "WED", "FRI"], day_of_month := none,
                week_of_month := none, day_of_week := none, end_date := none,
                occurrence_count := none })
        (some 0) (some 604800) 1000).map startOfItem).Pairwise (· < ·) :=
  (C1_amended
    { id := 2, user_id := 1, title := "gym", start_datetime := 0, end_datetime := none }
    { frequency := "WEEKLY", interval := some 1,
      days_of_week := some ["MON", "WED", "FRI"], day_of_month := none,
      week_of_month := none, day_of_week := none, end_date := none,
      occurrence_count := none }
    0 604800 1000 (by decide) (by decide) (by decide) _ rfl).1

/-! ## Claim C2 -/

theorem buildParams_monthly (event : Event) (r : RecurrenceRule) (w2 : Int)
    (m : Nat) (ps : RParams) (md : Int)
    (hf : r.frequency = "MONTHLY") (hmd : r.day_of_month = some md)
    (hpos : 1 ≤ md) (hps : buildParams event r w2 m = some ps) :
    ps.freq = .monthly ∧ ps.monthday = md ∧
    ps.tod = todOfTime event.start_datetime := by
  unfold buildParams at hps
  rw [hf] at hps
  rw [show FREQUENCY_MAP "MONTHLY" = some 1 from rfl] at hps
  dsimp only at hps
  rw [show ((1 : Int) == 0) = false from rfl] at hps
  simp only [Bool.false_eq_true, if_false] at hps
  have hne : truthyInt r.day_of_month = true := by
    rw [hmd]
    simp only [truthyInt, bne_iff_ne, ne_eq]
    omega
  have hr : monthly_raises r = false := by
    unfold monthly_raises
    rw [hne]
    rfl
  rw [hr] at hps
  simp only [Bool.and_false, Bool.false_eq_true, if_false] at hps
  injection hps with h
  subst h
  refine ⟨rfl, ?_, rfl⟩
  rw [hmd] at hne ⊢
  simp only [hne, if_true, Option.getD_some]

/-- C2: a MONTHLY rule with day-of-month set emits occurrences only on days
whose day-of-month equals that value — a month lacking the day contributes
nothing and is never clamped to its last valid day — and concretely, for an
anchor of 2024-01-31 with interval 1 and a window through 2024-04-30 the
occurrence starts are exactly 2024-01-31 and 2024-03-31 (February and April
are skipped). -/
theorem C2_monthly_skip :
    (∀ (event : Event) (r : RecurrenceRule) (w1 w2 : Int) (m : Nat)
       (ps : RParams) (md : Int),
      r.frequency = "MONTHLY" → r.day_of_month = some md → 1 ≤ md →
      buildParams event r w2 m = some ps →
      ∀ it ∈ generate_occurrences event (some r) (some w1) (some w2) m,
        ∃ d, startOfItem it = d * 86400 + todOfTime event.start_datetime ∧
          domOfDay d = md) ∧
    (generate_occurrences
        { id := 3, user_id := 1, title := "rent", start_datetime := daysFromCivil 2024 1 31 * 86400, end_datetime := none }
        (some { frequency := "MONTHLY", interval := some 1, days_of_week := none,
                day_of_month := some 31, week_of_month := none, day_of_week := none,
                end_date := none, occurrence_count := none })
        (some (daysFromCivil 2024 1 31 * 86400))
        (some (daysFromCivil 2024 4 30 * 86400)) 1000).map startOfItem =
      [daysFromCivil 2024 1 31 * 86400, daysFromCivil 2024 3 31 * 86400] := by
  constructor
  · intro event r w1 w2 m ps md hf hmd hpos hps it hit
    obtain ⟨hfreq, hmday, htod⟩ := buildParams_monthly event r w2 m ps md hf hmd hpos hps
    rw [generate_occurrences_success event r w1 w2 m ps hps] at hit
    rcases List.mem_map.mp hit with ⟨t, ht, rfl⟩
    have htmem : t ∈ rruleTimes ps :=
      (windowLoop_sublist w1 w2 m (rruleTimes ps) 0).subset ht
    obtain ⟨d, hmatch, rfl⟩ := rruleTimes_mem_matches ps t htmem
    refine ⟨d, by simp [startOfItem, mkOccurrence, htod], ?_⟩
    unfold matchesDay at hmatch
    rw [hfreq] at hmatch
    simp only [Bool.and_eq_true] at hmatch
    have h2 := hmatch.2
    rw [hmday, if_pos (by omega : md > 0)] at h2
    simpa only [beq_iff_eq] using h2
  · decide

/-- Witness for `C2_monthly_skip`: the 2024-01-31 occurrence of the
day-31 rule indeed falls on day 31 of its month. -/
theorem C2_monthly_skip_witness :
    ∃ d, startOfItem (GenItem.occ (mkOccurrence
        { id := 3, user_id := 1, title := "rent", start_datetime := daysFromCivil 2024 1 31 * 86400, end_datetime := none }
        (daysFromCivil 2024 1 31 * 86400))) =
      d * 86400 + todOfTime (daysFromCivil 2024 1 31 * 86400 : Int) ∧ domOfDay d = 31 :=
  C2_monthly_skip.1
    { id := 3, user_id := 1, title := "rent", start_datetime := daysFromCivil 2024 1 31 * 86400, end_datetime := none }
    { frequency := "MONTHLY", interval := some 1, days_of_week := none,
      day_of_month := some 31, week_of_month := none, day_of_week := none,
      end_date := none, occurrence_count := none }
    (daysFromCivil 2024 1 31 * 86400) (daysFromCivil 2024 4 30 * 86400) 1000
    { freq := .monthly, interval := 1, d0 := 19753, tod := 0, weekdays := [2],
      monthday := 31, term := .tUntil (19843 * 86400) }
    31 rfl rfl (by decide) (by decide) _ (by decide)

/-! ## Claim C3 -/

/-- C9: whenever expansion is not reached — the frequency name is not a key
of `FREQUENCY_MAP`, the rule is YEARLY (its dateutil constant 0 fails the
source's `if not freq` truthiness check), or its parameters make `rrule`
construction raise (the MONTHLY week-of-month string-`byweekday` case of
`monthly_raises`) — `generate_occurrences` returns the single-element list
holding the anchor event itself instead of rejecting the rule or
propagating an error.  This covers both cases of the claim (unknown
frequency; raising parameters) and additionally YEARLY.  An out-of-range
`day_of_month` is *not* in this set: dateutil accepts any `bymonthday`
without a range check, so such a rule expands to an empty in-window stream
(or, with a count terminator, never terminates in the source). -/
theorem C9_unknown_frequency_fallback (event : Event) (r : RecurrenceRule)
    (w1? w2? : Option Int) (m : Nat)
    (h : expansionSucceeds r = false) :
    generate_occurrences event (some r) w1? w2? m = [GenItem.anchor event] := by
  apply generate_occurrences_fallback
  unfold expansionSucceeds at h
  unfold buildParams
  cases hf : FREQUENCY_MAP r.frequency with
  | none => rfl
  | some c =>
    rw [hf] at h
    dsimp only at h
    dsimp only
    cases hc0 : (c == 0) with
    | true => simp
    | false =>
      have hbne : (c != 0) = true := by
        simp only [bne]
        rw [hc0]
        rfl
      rw [hbne, Bool.true_and] at h
      have hx : (c == 1 && monthly_raises r) = true := by
        cases hy : (c == 1 && monthly_raises r) with
        | true => rfl
        | false => rw [hy] at h; simp at h
      rw [Bool.and_eq_true] at hx
      have hc1' : c = 1 := by
        simpa only [beq_iff_eq] using hx.1
      subst hc1'
      simp [freqOfConst, hx.2]

/-- Witness for `C9_unknown_frequency_fallback`: an HOURLY rule (not in the
frequency map) collapses to the anchor event. -/
theorem C9_unknown_frequency_fallback_witness :
    generate_occurrences
      { id := 5, user_id := 1, title := "poll", start_datetime := 0, end_datetime := none }
      (some { frequency := "HOURLY", interval := some 1, days_of_week := none,
              day_of_month := none, week_of_month := none, day_of_week := none,
              end_date := none, occurrence_count := none })
      (some 0) (some 864000) 1000 =
      [GenItem.anchor { id := 5, user_id := 1, title := "poll", start_datetime := 0, end_datetime := none }] :=
  C9_unknown_frequency_fallback
    { id := 5, user_id := 1, title := "poll", start_datetime := 0, end_datetime := none }
    { frequency := "HOURLY", interval := some 1, days_of_week := none,
      day_of_month := none, week_of_month := none, day_of_week := none,
      end_date := none, occurrence_count := none }
    (some 0) (some 864000) 1000 (by decide)

/-! ## Claim C4 -/

/-- C4: when an anchor's start changes (single edit with a changed
`start_datetime`, or bulk move by an offset), each relative reminder with
`minutes_before` set gets `reminder_time := newStart − minutes_before`
exactly when that instant is strictly in the future at recompute time, and
is otherwise left untouched (and never deleted — both passes are maps);
`notification_sent` is never written, and absolute reminders
(`is_relative = false`) are never recomputed. -/
theorem C4_recompute (eid newStart now : Int) (r : Reminder) :
    (∀ mb : Int, r.event_id = eid → r.is_relative = true →
      r.minutes_before = some mb →
      (newStart - 60 * mb > now →
        moveOneReminder eid newStart now r =
          { r with reminder_time := some (newStart - 60 * mb) }) ∧
      (¬ (newStart - 60 * mb > now) → moveOneReminder eid newStart now r = r)) ∧
    (r.is_relative = false → moveOneReminder eid newStart now r = r) ∧
    (r.minutes_before = none → moveOneReminder eid newStart now r = r) ∧
    ((moveOneReminder eid newStart now r).notification_sent = r.notification_sent) ∧
    (∀ (startChanged : Bool) (rs : List Reminder),
      update_event_reminders startChanged eid newStart now rs =
        if startChanged then rs.map (moveOneReminder eid newStart now) else rs) ∧
    (∀ (e : Event) (offsetMinutes : Int) (rs : List Reminder),
      bulk_move_reminders [e] offsetMinutes now rs =
        rs.map (moveOneReminder e.id (e.start_datetime + 60 * offsetMinutes) now)) := by
  refine ⟨?_, ?_, ?_, ?_, ?_, ?_⟩
  · intro mb hid hrel hmb
    constructor
    · intro hfut
      simp only [moveOneReminder, hid, hrel, beq_self_eq_true, Bool.and_self,
        if_true, hmb]
      rw [if_pos hfut]
    · intro hpast
      simp only [moveOneReminder, hid, hrel, beq_self_eq_true, Bool.and_self,
        if_true, hmb]
      rw [if_neg hpast]
  · intro hrel
    simp [moveOneReminder, hrel]
  · intro hmb
    unfold moveOneReminder
    rw [hmb]
    split <;> rfl
  · unfold moveOneReminder
    split
    · split
      · dsimp only
        split <;> rfl
      · rfl
    · rfl
  · intro startChanged rs
    rfl
  · intro e offsetMinutes rs
    rfl

/-- Witness for `C4_recompute`: an unsent 15-minute reminder follows the
anchor to its new start. -/
theorem C4_recompute_witness :
    moveOneReminder 1 7200 0
      { id := 9, event_id := 1, reminder_time := some 300,
        notification_sent := false, notification_type := "email",
        minutes_before := some 15, is_relative := true } =
      { id := 9, event_id := 1, reminder_time := some 6300,
        notification_sent := false, notification_type := "email",
        minutes_before := some 15, is_relative := true } :=
  ((C4_recompute 1 7200 0
      { id := 9, event_id := 1, reminder_time := some 300,
        notification_sent := false, notification_type := "email",
        minutes_before := some 15, is_relative := true }).1
    15 rfl rfl rfl).1 (by decide)

/-! ## Claim C5 -/

/-- Accepted single-route reminders satisfy the timing bounds that actually
hold: strictly future, at or before the anchor start, and strictly before it
only on the absolute path. -/
theorem create_reminder_bounds (event : Event) (existing : List Reminder)
    (rt? mb? : Option Int) (ntype : String) (now nid : Int)
    (r : Reminder) (db : List Reminder)
    (h : create_reminder event existing rt? mb? ntype now nid = .ok r db) :
    ∃ t, r.reminder_time = some t ∧ now < t ∧ t ≤ event.start_datetime ∧
      (r.is_relative = false → t < event.start_datetime) := by
  unfold create_reminder at h
  cases rt? with
  | none =>
    cases mb? with
    | none => simp at h
    | some mb =>
      simp only [Option.isNone_none, Option.isNone_some, Bool.and_false,
        Option.isSome_none, Option.isSome_some, Bool.false_and, Bool.true_and,
        Bool.and_true, Bool.false_eq_true, if_false] at h
      split at h
      · exact CreateResult.noConfusion h
      · split at h
        · exact CreateResult.noConfusion h
        · split at h
          · exact CreateResult.noConfusion h
          · rename_i htype hneg hpast
            unfold finishCreateReminder at h
            split at h
            · exact CreateResult.noConfusion h
            · injection h with h1 h2
              subst h1
              refine ⟨event.start_datetime - 60 * mb, rfl, by omega, by omega, ?_⟩
              intro hf
              simp at hf
  | some rt =>
    cases mb? with
    | some mb =>
      simp only [Option.isNone_some, Bool.false_and, Option.isSome_some,
        Bool.and_self, Bool.false_eq_true, if_false, if_true] at h
      exact CreateResult.noConfusion h
    | none =>
      simp only [Option.isNone_some, Option.isNone_none, Bool.and_false,
        Bool.and_true, Option.isSome_some, Option.isSome_none, Bool.false_eq_true,
        if_false, Option.getD_some] at h
      split at h
      · exact CreateResult.noConfusion h
      · split at h
        · exact CreateResult.noConfusion h
        · split at h
          · exact CreateResult.noConfusion h
          · rename_i hpast hafter
            unfold finishCreateReminder at h
            split at h
            · exact CreateResult.noConfusion h
            · injection h with h1 h2
              subst h1
              exact ⟨rt, rfl, by omega, by omega, fun _ => by omega⟩

/-- Accepted bulk-route reminders satisfy the same bounds, relative to the
item's resolved event. -/
theorem bulkValidateItem_bounds (events : List Event) (item : BulkReminderItem)
    (now nid : Int) (e : Event) (r : Reminder)
    (he : events.find? (fun x => x.id == item.event_id) = some e)
    (h : bulkValidateItem events item now nid = .ok r) :
    ∃ t, r.reminder_time = some t ∧ now < t ∧ t ≤ e.start_datetime ∧
      (r.is_relative = false → t < e.start_datetime) := by
  unfold bulkValidateItem at h
  rw [he] at h
  obtain ⟨eid, rt?, mb?, ntype⟩ := item
  cases rt? with
  | none =>
    cases mb? with
    | none => simp at h
    | some mb =>
      simp only [Option.isNone_none, Option.isNone_some, Bool.and_false,
        Option.isSome_none, Option.isSome_some, Bool.false_and, Bool.true_and,
        Bool.and_true, Bool.false_eq_true, if_false] at h
      split at h
      · exact Except.noConfusion h
      · split at h
        · exact Except.noConfusion h
        · rename_i hneg hpast
          injection h with h1
          subst h1
          refine ⟨e.start_datetime - 60 * mb, rfl, by omega, by omega, ?_⟩
          intro hf
          simp at hf
  | some rt =>
    cases mb? with
    | some mb =>
      simp only [Option.isNone_some, Bool.false_and, Option.isSome_some,
        Bool.and_self, Bool.false_eq_true, if_false, if_true] at h
      exact Except.noConfusion h
    | none =>
      simp only [Option.isNone_some, Option.isNone_none, Bool.and_false,
        Bool.and_true, Option.isSome_some, Option.isSome_none, Bool.false_eq_true,
        if_false, Option.getD_some] at h
      split at h
      · exact Except.noConfusion h
      · split at h
        · exact Except.noConfusion h
        · rename_i hpast hafter
          injection h with h1
          subst h1
          exact ⟨rt, rfl, by omega, by omega, fun _ => by omega⟩

/-- Accepted event-creation candidates satisfy the same bounds against the
new event's start. -/
theorem validateOneEventReminder_bounds (start_dt now : Int)
    (item : Option Int × Option Int × String)
    (v : Int × Option Int × Bool × String)
    (h : validateOneEventReminder start_dt now item = .ok v) :
    now < v.1 ∧ v.1 ≤ start_dt ∧ (v.2.2.1 = false → v.1 < start_dt) := by
  obtain ⟨rt?, mb?, ntype⟩ := item
  unfold validateOneEventReminder at h
  cases rt? with
  | none =>
    cases mb? with
    | none => simp at h
    | some mb =>
      simp only [Option.isNone_none, Option.isNone_some, Bool.and_false,
        Option.isSome_none, Option.isSome_some, Bool.false_and, Bool.true_and,
        Bool.and_true, Bool.false_eq_true, if_false] at h
      split at h
      · exact Except.noConfusion h
      · split at h
        · exact Except.noConfusion h
        · rename_i hneg hpast
          injection h with h1
          subst h1
          refine ⟨by omega, by omega, ?_⟩
          intro hf
          simp at hf
  | some rt =>
    cases mb? with
    | some mb =>
      simp only [Option.isNone_some, Bool.false_and, Option.isSome_some,
        Bool.and_self, Bool.false_eq_true, if_false, if_true] at h
      exact Except.noConfusion h
    | none =>
      simp only [Option.isNone_some, Option.isNone_none, Bool.and_false,
        Bool.and_true, Option.isSome_some, Option.isSome_none, Bool.false_eq_true,
        if_false, Option.getD_some] at h
      split at h
      · exact Except.noConfusion h
      · split at h
        · exact Except.noConfusion h
        · rename_i hpast hafter
          injection h with h1
          subst h1
          exact ⟨by omega, by omega, fun _ => by omega⟩

/-- Fixture event for the C5 counterexample: starts at instant 600 with
"now" at 0. -/
def evC5 : Event :=
  { id := 6, user_id := 1, title := "call", start_datetime := 600, end_datetime := none }

/-- The reminder the single-create route accepts for `minutes_before = 0`. -/
def rC5 : Reminder :=
  { id := 1, event_id := 6, reminder_time := some 600, notification_sent := false,
    notification_type := "email", minutes_before := some 0, is_relative := true }

/-- C5 fails as stated: a relative reminder with `minutes_before = 0` is
accepted and persisted with `reminder_time` equal to — not strictly before —
the anchor event's start, because the relative path only checks that the
computed time is in the future. -/
theorem C5_counterexample :
    create_reminder evC5 [] none (some 0) "email" 0 1 = .ok rC5 [rC5] ∧
    rC5.reminder_time = some evC5.start_datetime ∧
    ¬ rC5.reminder_time.getD 0 < evC5.start_datetime := by decide

/-- C5 as amended: on every creation path (single create, bulk create,
event-creation), an accepted reminder's time is strictly after `now` and at
most the anchor's start; it is strictly **before** the anchor's start on the
absolute path, while the relative path admits equality (exactly when
`minutes_before = 0`). -/
theorem C5_amended :
    (∀ (event : Event) (existing : List Reminder) (rt? mb? : Option Int)
       (ntype : String) (now nid : Int) (r : Reminder) (db : List Reminder),
      create_reminder event existing rt? mb? ntype now nid = .ok r db →
      ∃ t, r.reminder_time = some t ∧ now < t ∧ t ≤ event.start_datetime ∧
        (r.is_relative = false → t < event.start_datetime)) ∧
    (∀ (events : List Event) (item : BulkReminderItem) (now nid : Int)
       (e : Event) (r : Reminder),
      events.find? (fun x => x.id == item.event_id) = some e →
      bulkValidateItem events item now nid = .ok r →
      ∃ t, r.reminder_time = some t ∧ now < t ∧ t ≤ e.start_datetime ∧
        (r.is_relative = false → t < e.start_datetime)) ∧
    (∀ (start_dt now : Int) (items : List (Option Int × Option Int × String))
       (out : List (Int × Option Int × Bool × String)),
      validateEventReminders start_dt now items = .ok out →
      ∀ v ∈ out, now < v.1 ∧ v.1 ≤ start_dt ∧ (v.2.2.1 = false → v.1 < start_dt)) := by
  refine ⟨create_reminder_bounds, bulkValidateItem_bounds, ?_⟩
  intro start_dt now items
  induction items with
  | nil =>
    intro out h v hv
    unfold validateEventReminders at h
    injection h with h1
    subst h1
    simp at hv
  | cons item rest ih =>
    intro out h v hv
    unfold validateEventReminders at h
    cases h1 : validateOneEventReminder start_dt now item with
    | error e =>
      rw [h1] at h
      exact Except.noConfusion h
    | ok v0 =>
      rw [h1] at h
      cases h2 : validateEventReminders start_dt now rest with
      | error e =>
        rw [h2] at h
        exact Except.noConfusion h
      | ok vs =>
        rw [h2] at h
        injection h with h3
        subst h3
        rcases List.mem_cons.mp hv with rfl | hv'
        · exact validateOneEventReminder_bounds start_dt now item v h1
        · exact ih vs h2 v hv'

/-- Witness for `C5_amended`: a concrete accepted absolute reminder sits
strictly between now and the anchor start. -/
theorem C5_amended_witness :
    ∃ t, (({ id := 2, event_id := 6, reminder_time := some 300,
             notification_sent := false, notification_type := "email",
             minutes_before := none, is_relative := false } : Reminder)).reminder_time =
        some t ∧ (0 : Int) < t ∧ t ≤ evC5.start_datetime ∧
        ((({ id := 2, event_id := 6, reminder_time := some 300,
             notification_sent := false, notification_type := "email",
             minutes_before := none, is_relative := false } : Reminder)).is_relative = false →
          t < evC5.start_datetime) :=
  C5_amended.1 evC5 [] (some 300) none "email" 0 2
    { id := 2, event_id := 6, reminder_time := some 300, notification_sent := false,
      notification_type := "email", minutes_before := none, is_relative := false }
    [{ id := 2, event_id := 6, reminder_time := some 300, notification_sent := false,
       notification_type := "email", minutes_before := none, is_relative := false }]
    (by decide)

/-! ## Claim C8 -/

theorem finishCreateReminder_ok (event : Event) (existing : List Reminder)
    (ntype : String) (nid rt : Int) (mb : Option Int) (rel : Bool)
    (r : Reminder) (db : List Reminder)
    (h : finishCreateReminder event existing ntype nid rt mb rel = .ok r db) :
    db = existing ++ [r] ∧ r.reminder_time = some rt ∧
    ∀ x ∈ existing, ¬(x.event_id = event.id ∧ x.reminder_time = some rt) := by
  unfold finishCreateReminder at h
  split at h
  · exact CreateResult.noConfusion h
  · rename_i hdup
    injection h with h1 h2
    subst h1
    subst h2
    refine ⟨rfl, rfl, ?_⟩
    intro x hx hc
    apply hdup
    rw [List.any_eq_true]
    refine ⟨x, hx, ?_⟩
    simp only [Bool.and_eq_true, beq_iff_eq]
    exact hc

theorem create_reminder_ok_finish (event : Event) (existing : List Reminder)
    (rt? mb? : Option Int) (ntype : String) (now nid : Int)
    (r : Reminder) (db : List Reminder)
    (h : create_reminder event existing rt? mb? ntype now nid = .ok r db) :
    ∃ rt mbv rel, finishCreateReminder event existing ntype nid rt mbv rel = .ok r db := by
  unfold create_reminder at h
  cases rt? with
  | none =>
    cases mb? with
    | none => simp at h
    | some mb =>
      simp only [Option.isNone_none, Option.isNone_some, Bool.and_false,
        Option.isSome_none, Option.isSome_some, Bool.false_and, Bool.true_and,
        Bool.and_true, Bool.false_eq_true, if_false] at h
      split at h
      · exact CreateResult.noConfusion h
      · split at h
        · exact CreateResult.noConfusion h
        · split at h
          · exact CreateResult.noConfusion h
          · exact ⟨_, _, _, h⟩
  | some rt =>
    cases mb? with
    | some mb =>
      simp only [Option.isNone_some, Bool.false_and, Option.isSome_some,
        Bool.and_self, Bool.false_eq_true, if_false, if_true] at h
      exact CreateResult.noConfusion h
    | none =>
      simp only [Option.isNone_some, Option.isNone_none, Bool.and_false,
        Bool.and_true, Option.isSome_some, Option.isSome_none, Bool.false_eq_true,
        if_false, Option.getD_some] at h
      split at h
      · exact CreateResult.noConfusion h
      · split at h
        · exact CreateResult.noConfusion h
        · split at h
          · exact CreateResult.noConfusion h
          · exact ⟨_, _, _, h⟩

/-- C8 as amended: the single-create route rejects a second reminder with
the same `reminder_time` for the same event and leaves the stored reminders
unchanged on any rejection — equivalently, an accepted creation implies no
stored reminder of that event already had that time.  The bulk route
performs no such check (see the counterexample). -/
theorem C8_duplicate_rejection :
    (∀ (event : Event) (existing : List Reminder) (rt? mb? : Option Int)
       (ntype : String) (now nid : Int) (r : Reminder) (db : List Reminder),
      create_reminder event existing rt? mb? ntype now nid = .ok r db →
        db = existing ++ [r] ∧
        ∀ x ∈ existing, ¬(x.event_id = event.id ∧ x.reminder_time = r.reminder_time)) ∧
    (∀ (existing : List Reminder) (msg : String) (code : Nat),
      applyCreate existing (.err msg code) = existing) := by
  constructor
  · intro event existing rt? mb? ntype now nid r db h
    obtain ⟨rt, mbv, rel, hfin⟩ :=
      create_reminder_ok_finish event existing rt? mb? ntype now nid r db h
    obtain ⟨hdb, hrt, hdup⟩ :=
      finishCreateReminder_ok event existing ntype nid rt mbv rel r db hfin
    refine ⟨hdb, ?_⟩
    rw [hrt]
    exact hdup
  · intro existing msg code
    rfl

/-- The reminder accepted in the C8 and C5 witness scenarios. -/
def rAccepted : Reminder :=
  { id := 2, event_id := 6, reminder_time := some 300, notification_sent := false,
    notification_type := "email", minutes_before := none, is_relative := false }

/-- Witness for `C8_duplicate_rejection`: accepting a reminder at instant
300 for an event with no stored reminders yields the singleton table. -/
theorem C8_duplicate_rejection_witness :
    ([] : List Reminder) ++ [rAccepted] = [] ++ [rAccepted] ∧
    ∀ x ∈ ([] : List Reminder),
      ¬(x.event_id = evC5.id ∧ x.reminder_time = rAccepted.reminder_time) :=
  C8_duplicate_rejection.1 evC5 [] (some 300) none "email" 0 2 rAccepted
    ([] ++ [rAccepted]) (by decide)

/-- Fixture event for the C8 counterexample. -/
def evC8 : Event :=
  { id := 7, user_id := 1, title := "sync", start_datetime := 1000, end_datetime := none }

/-- A stored reminder at instant 500 for event 7. -/
def xC8 : Reminder :=
  { id := 1, event_id := 7, reminder_time := some 500, notification_sent := false,
    notification_type := "email", minutes_before := none, is_relative := false }

/-- A bulk item requesting a second reminder at the same instant 500 for
the same event 7. -/
def itemC8 : BulkReminderItem :=
  { event_id := 7, reminder_time? := some 500, minutes_before? := none,
    notification_type := "email" }

/-- C8 fails as stated: the bulk creation path performs no duplicate check,
so a second reminder with the same `reminder_time` for the same event is
accepted without error and persisted — the table ends up with two reminders
for (event 7, instant 500). -/
theorem C8_counterexample :
    (create_bulk_reminders [evC8] [xC8] [itemC8] 0 2).2 = [] ∧
    ((create_bulk_reminders [evC8] [xC8] [itemC8] 0 2).1.filter
        (fun x => x.event_id == 7 && x.reminder_time == some (500 : Int))).length = 2 := by
  decide

/-! ## Claim C6 -/

/-- C6: on one tick, a due unsent email reminder with an existing event and
user is marked sent exactly when its dispatch succeeds; on a failed dispatch
the row is unchanged and still selected and due on every later tick; the
tick rewrites each row independently (per-row unit of work), and
`notification_sent` only ever moves from false to true — a sent row is never
reset. -/
theorem C6_tick_dispatch (emailOk : Int → Bool) (now : Int) (st : SchedState)
    (r : Reminder) (t : Int)
    (ht : r.reminder_time = some t) (hdue : t ≤ now)
    (hunsent : r.notification_sent = false)
    (hres : (resolveReminder st r).isSome = true)
    (htype : r.notification_type = "email") :
    ((tick emailOk now st).state.reminders =
      st.reminders.map (processRow emailOk now st)) ∧
    (emailOk r.id = true →
      processRow emailOk now st r = { r with notification_sent := true }) ∧
    (emailOk r.id = false →
      processRow emailOk now st r = r ∧
      ∀ now2, now ≤ now2 →
        selectedForTick now2 r = true ∧ dueNow now2 r = true) ∧
    (∀ x : Reminder, x.notification_sent = true →
      (processRow emailOk now st x).notification_sent = true) := by
  have hsel : selectedForTick now r = true := by
    unfold selectedForTick
    rw [ht, hunsent]
    simp only [Bool.and_eq_true, decide_eq_true_eq, beq_self_eq_true, and_true]
    omega
  have hdn : dueNow now r = true := by
    unfold dueNow
    rw [ht]
    simp only [decide_eq_true_eq]
    exact hdue
  obtain ⟨p, hp⟩ := Option.isSome_iff_exists.mp hres
  refine ⟨rfl, ?_, ?_, ?_⟩
  · intro hok
    unfold processRow
    rw [hsel, hdn, hp]
    simp only [Bool.and_self, if_true]
    unfold dispatchOutcome
    rw [htype]
    simp only [beq_self_eq_true, if_true, hok, if_true]
  · intro hok
    constructor
    · unfold processRow
      rw [hsel, hdn, hp]
      simp only [Bool.and_self, if_true]
      unfold dispatchOutcome
      rw [htype]
      simp only [beq_self_eq_true, if_true, hok]
      rfl
    · intro now2 h2
      constructor
      · unfold selectedForTick
        rw [ht, hunsent]
        simp only [Bool.and_eq_true, decide_eq_true_eq, beq_self_eq_true, and_true]
        omega
      · unfold dueNow
        rw [ht]
        simp only [decide_eq_true_eq]
        omega
  · intro x hx
    have hs : selectedForTick now x = false := by
      unfold selectedForTick
      cases hxt : x.reminder_time with
      | none => rfl
      | some t' =>
        rw [hx]
        simp
    unfold processRow
    rw [hs]
    simp only [Bool.false_and, Bool.false_eq_true, if_false]
    exact hx

/-- State for the C6 witness: one due unsent email reminder whose event and
user exist. -/
def stC6 : SchedState :=
  { reminders := [{ id := 11, event_id := 1, reminder_time := some 40,
                    notification_sent := false, notification_type := "email",
                    minutes_before := some 10, is_relative := true }],
    events := [{ id := 1, user_id := 1, title := "kickoff", start_datetime := 640,
                 end_datetime := none }],
    users := [{ id := 1, email := "a@b.c", username := "ana" }] }

/-- Witness for `C6_tick_dispatch`: with an always-succeeding dispatch the
due reminder is marked sent. -/
theorem C6_tick_dispatch_witness :
    processRow (fun _ => true) 100 stC6
      { id := 11, event_id := 1, reminder_time := some 40,
        notification_sent := false, notification_type := "email",
        minutes_before := some 10, is_relative := true } =
    { id := 11, event_id := 1, reminder_time := some 40,
      notification_sent := true, notification_type := "email",
      minutes_before := some 10, is_relative := true } :=
  (C6_tick_dispatch (fun _ => true) 100 stC6
    { id := 11, event_id := 1, reminder_time := some 40,
      notification_sent := false, notification_type := "email",
      minutes_before := some 10, is_relative := true }
    40 rfl (by decide) rfl (by decide) rfl).2.1 rfl

/-! ## Claim C7 -/

/-- Over any run of ticks, a reminder whose event or user is missing is
never dispatched and its row never changes; since ticks never write events
or users, the orphan stays an orphan. -/
theorem orphan_never_attempted (r : Reminder) :
    ∀ (ticks : List (Int × (Int → Bool))) (st : SchedState),
      resolveReminder st r = none → r ∈ st.reminders →
      r ∉ runAttempts ticks st ∧ r ∈ (runTicks ticks st).reminders := by
  intro ticks
  induction ticks with
  | nil =>
    intro st h1 h2
    exact ⟨by simp [runAttempts], h2⟩
  | cons p rest ih =>
    intro st h1 h2
    obtain ⟨now, ok⟩ := p
    have hproc : processRow ok now st r = r := by
      unfold processRow
      rw [h1]
      split <;> rfl
    have hmem' : r ∈ (tick ok now st).state.reminders :=
      List.mem_map.mpr ⟨r, h2, hproc⟩
    have h1' : resolveReminder (tick ok now st).state r = none := h1
    obtain ⟨hna, hmem''⟩ := ih (tick ok now st).state h1' hmem'
    constructor
    · intro hmm
      rcases List.mem_append.mp hmm with hA | hB
      · have hcond := (List.mem_filter.mp hA).2
        rw [h1] at hcond
        simp at hcond
      · exact hna hB
    · exact hmem''

/-- C7: a due unsent reminder whose event or owning user no longer exists is
skipped with an orphan warning, its row (including the unsent flag) is left
untouched, and no dispatch for it is ever attempted, on this or any
subsequent tick. -/
theorem C7_orphan_skip (st : SchedState) (r : Reminder)
    (horph : resolveReminder st r = none) (hmem : r ∈ st.reminders) :
    (∀ (emailOk : Int → Bool) (now : Int), processRow emailOk now st r = r) ∧
    (∀ (emailOk : Int → Bool) (now : Int),
      selectedForTick now r = true → dueNow now r = true →
      r ∈ (tick emailOk now st).orphanWarnings) ∧
    (∀ ticks : List (Int × (Int → Bool)),
      r ∉ runAttempts ticks st ∧ r ∈ (runTicks ticks st).reminders) := by
  refine ⟨?_, ?_, ?_⟩
  · intro emailOk now
    unfold processRow
    rw [horph]
    split <;> rfl
  · intro emailOk now hsel hdn
    apply List.mem_filter.mpr
    refine ⟨hmem, ?_⟩
    rw [hsel, hdn, horph]
    rfl
  · intro ticks
    exact orphan_never_attempted r ticks st horph hmem

/-- State for the C7 witness: the reminder's event id 9 does not exist. -/
def stC7 : SchedState :=
  { reminders := [{ id := 12, event_id := 9, reminder_time := some 40,
                    notification_sent := false, notification_type := "email",
                    minutes_before := none, is_relative := false }],
    events := [], users := [] }

/-- Witness for `C7_orphan_skip`: the orphan reminder is warned about on a
due tick. -/
theorem C7_orphan_skip_witness :
    ({ id := 12, event_id := 9, reminder_time := some 40,
       notification_sent := false, notification_type := "email",
       minutes_before := none, is_relative := false } : Reminder) ∈
      (tick (fun _ => true) 100 stC7).orphanWarnings :=
  (C7_orphan_skip stC7
    { id := 12, event_id := 9, reminder_time := some 40,
      notification_sent := false, notification_type := "email",
      minutes_before := none, is_relative := false }
    (by decide) (by decide)).2.1 (fun _ => true) 100 (by decide) (by decide)

/-! ## Claim C10 -/

/-- C10: a due unsent reminder with an existing event and user whose
`notification_type` is anything other than `email` — including `push`,
`sms`, and unrecognized values — is marked sent without any real dispatch
(`notification_sent := true`, no email attempt), so it is consumed silently
and never retried. -/
theorem C10_nonemail_marked_sent (emailOk : Int → Bool) (now : Int)
    (st : SchedState) (r : Reminder) (t : Int)
    (ht : r.reminder_time = some t) (hdue : t ≤ now)
    (hunsent : r.notification_sent = false)
    (hres : (resolveReminder st r).isSome = true)
    (htype : r.notification_type ≠ "email") :
    processRow emailOk now st r = { r with notification_sent := true } ∧
    r ∉ (tick emailOk now st).emailAttempts := by
  have hsel : selectedForTick now r = true := by
    unfold selectedForTick
    rw [ht, hunsent]
    simp only [Bool.and_eq_true, decide_eq_true_eq, beq_self_eq_true, and_true]
    omega
  have hdn : dueNow now r = true := by
    unfold dueNow
    rw [ht]
    simp only [decide_eq_true_eq]
    exact hdue
  have hbeq : (r.notification_type == "email") = false := by
    simp only [beq_eq_false_iff_ne, ne_eq]
    exact htype
  obtain ⟨p, hp⟩ := Option.isSome_iff_exists.mp hres
  constructor
  · unfold processRow
    rw [hsel, hdn, hp]
    simp only [Bool.and_self, if_true]
    unfold dispatchOutcome
    rw [hbeq]
    simp only [Bool.false_eq_true, if_false, if_true]
  · intro hmm
    have hcond := (List.mem_filter.mp hmm).2
    rw [hbeq] at hcond
    simp at hcond

/-- State for the C10 witness: a due unsent reminder with the unrecognized
type "pigeon" whose event and user exist. -/
def stC10 : SchedState :=
  { reminders := [{ id := 13, event_id := 1, reminder_time := some 40,
                    notification_sent := false, notification_type := "pigeon",
                    minutes_before := none, is_relative := false }],
    events := [{ id := 1, user_id := 1, title := "kickoff", start_datetime := 640,
                 end_datetime := none }],
    users := [{ id := 1, email := "a@b.c", username := "ana" }] }

/-- Witness for `C10_nonemail_marked_sent`: the "pigeon" reminder is marked
sent without a dispatch. -/
theorem C10_nonemail_marked_sent_witness :
    processRow (fun _ => false) 100 stC10
      { id := 13, event_id := 1, reminder_time := some 40,
        notification_sent := false, notification_type := "pigeon",
        minutes_before := none, is_relative := false } =
    { id := 13, event_id := 1, reminder_time := some 40,
      notification_sent := true, notification_type := "pigeon",
      minutes_before := none, is_relative := false } :=
  (C10_nonemail_marked_sent (fun _ => false) 100 stC10
    { id := 13, event_id := 1, reminder_time := some 40,
      notification_sent := false, notification_type := "pigeon",
      minutes_before := none, is_relative := false }
    40 rfl (by decide) rfl (by decide) (by decide)).1
